import Mathlib

/-!
Shallow embedding of the CN-Proj support system (src/Networks/receiver.py and
src/Networks/sender.py): a JSON value model mirroring Python truthiness, the
risk policy `get_response`, the classifier wrapper `analyze_emotions`, the
HTTP handler `receive_message` with its in-memory session log, and the client
side `send_message`.  Scores are modelled as rationals, timestamps as opaque
parameters, and the Flask `request.json` value as an `Option JsonValue`
(`none` for a request that carried no parseable JSON body).
-/

namespace Receiver

/-- A JSON value as Python sees it after `request.json`: null, booleans,
numbers, strings, arrays, and objects (association lists of string keys). -/
inductive JsonValue where
  | null : JsonValue
  | bool : Bool → JsonValue
  | num : ℚ → JsonValue
  | str : String → JsonValue
  | arr : List JsonValue → JsonValue
  | obj : List (String × JsonValue) → JsonValue

/-- Python truthiness test, as used by `if not data` and `if not message` in
`receive_message`: None, False, 0, the empty string, the empty list and the
empty dict are falsy. -/
def JsonValue.falsy : JsonValue → Bool
  | .null => true
  | .bool b => !b
  | .num q => q == 0
  | .str s => s == ""
  | .arr l => l.isEmpty
  | .obj l => l.isEmpty

/-- Python `data.get(key, default)`: succeeds on a dict (returning the value
under `key`, or `default` when the key is absent) and raises `AttributeError`
on any other value, modelled as `Except Unit`. -/
def JsonValue.get : JsonValue → String → JsonValue → Except Unit JsonValue
  | .obj l, key, dflt => .ok ((l.lookup key).getD dflt)
  | _, _, _ => .error ()

/-- The fixed high-risk emotion list from `get_response`. -/
def high_risk_emotions : List String := ["sadness", "fear", "grief"]

/-- The fixed crisis-referral message returned on the high-risk branch of
`get_response` (the three adjacent string literals of the source,
concatenated). -/
def crisis_message : String :=
  "I hear how much pain you\x27re in, and I want you to know that your life has value. Please reach out to the crisis helpline immediately at 988 - they are available 24/7 and want to support you. You don\x27t have to go through this alone."

/-- The fixed generic supportive message returned on the else branch of
`get_response`. -/
def generic_message : String :=
  "Thank you for reaching out. It takes courage to share these feelings. While I\x27m here to listen, it\x27s important to connect with mental health professionals who can provide the support you need."

/-- The value returned by `get_response`: a response text and a risk level. -/
structure RiskResponse where
  message : String
  risk_level : String
deriving DecidableEq, Repr

/-- Embedding of `get_response(emotion, score)` from receiver.py: high risk
with the crisis message when the emotion is in the fixed list and the score
is strictly above 0.5, medium risk with the generic message otherwise. -/
def get_response (emotion : String) (score : ℚ) : RiskResponse :=
  if emotion ∈ high_risk_emotions ∧ (1 : ℚ)/2 < score then
    ⟨crisis_message, "high"⟩
  else
    ⟨generic_message, "medium"⟩

/-- The emotion classification model, as the handler observes it: given the
message value it either yields a label and a score, or fails (an exception
inside the pipeline call), modelled as `none`. -/
abbrev Model := JsonValue → Option (String × ℚ)

/-- Embedding of `analyze_emotions(text)` from receiver.py.  The first
argument is the memoized model handle: `none` when `load_model` failed, in
which case the sentinel pair is returned; when the model is present but its
invocation raises, the surrounding `except` also yields the sentinel pair. -/
def analyze_emotions (model : Option Model) (text : JsonValue) : String × ℚ :=
  match model with
  | none => ("unknown", 0)
  | some m =>
    match m text with
    | some r => r
    | none => ("unknown", 0)

/-- One entry of `st.session_state.messages`, built per accepted request. -/
structure InteractionRecord where
  timestamp : ℕ
  client_id : JsonValue
  message : JsonValue
  emotion : String
  score : ℚ
  response : String

/-- One entry of `st.session_state.emotion_data`, the charting projection. -/
structure EmotionSample where
  timestamp : ℕ
  emotion : String
  score : ℚ
  client_id : JsonValue

/-- The server session state: the two append-only lists of receiver.py. -/
structure ServerState where
  messages : List InteractionRecord
  emotion_data : List EmotionSample

/-- A response body: either an error object or a success object carrying the
response message and the risk level. -/
inductive RespBody where
  | err : String → RespBody
  | ok : String → String → RespBody
deriving DecidableEq, Repr

/-- Embedding of the `receive_message` handler of POST /api/support.  Inputs:
the memoized model handle, the current clock value, the session state, and
the value of `request.json` (`none` when the request had no parseable JSON
body).  Output: (response body, HTTP status) and the new session state.  The
branches mirror the source: falsy body, then the two `data.get` calls (which
raise on a non-dict body, caught by the outer handler as a 500), then the
falsy-message check, then classification, risk policy, and the two appends
sharing one timestamp. -/
def receive_message (model : Option Model) (now : ℕ) (st : ServerState)
    (data : Option JsonValue) : (RespBody × ℕ) × ServerState :=
  match data with
  | none => ((.err "No JSON data received", 400), st)
  | some d =>
    if d.falsy then ((.err "No JSON data received", 400), st)
    else
      match d.get "message" (.str ""), d.get "client_id" (.str "unknown") with
      | .ok message, .ok client_id =>
        if message.falsy then ((.err "Empty message", 400), st)
        else
          let es := analyze_emotions model message
          let response := get_response es.1 es.2
          ((.ok response.message response.risk_level, 200),
           ⟨st.messages ++ [⟨now, client_id, message, es.1, es.2, response.message⟩],
            st.emotion_data ++ [⟨now, es.1, es.2, client_id⟩]⟩)
      | _, _ => ((.err "Internal server error", 500), st)

/-- Validation predicate derived from the handler: a request is accepted
(reaches the 200 path) exactly when its body is a truthy JSON object whose
message field defaults through `get` to a truthy value. -/
def accepted (data : Option JsonValue) : Bool :=
  match data with
  | some (.obj l) => !l.isEmpty && !(((l.lookup "message").getD (.str "")).falsy)
  | _ => false

/-- Python falsiness of the whole `request.json` value (None is falsy). -/
def bodyFalsy : Option JsonValue → Bool
  | none => true
  | some d => d.falsy

/-- Sequential processing of a list of (timestamp, body) requests against an
evolving session state, threading the state through `receive_message`. -/
def runRequests (model : Option Model) (reqs : List (ℕ × Option JsonValue))
    (st : ServerState) : ServerState :=
  reqs.foldl (fun s r => (receive_message model r.1 s r.2).2) st

/-- The value of `data.get("message", "")` on an object body. -/
def msgOf (l : List (String × JsonValue)) : JsonValue :=
  (l.lookup "message").getD (.str "")

/-- The value of `data.get("client_id", "unknown")` on an object body. -/
def cidOf (l : List (String × JsonValue)) : JsonValue :=
  (l.lookup "client_id").getD (.str "unknown")

end Receiver

namespace Sender

/-- One turn of the client transcript (`st.session_state.messages` in
sender.py): a timestamp string, a role, the content, and the risk level tag
(present only on assistant turns). -/
structure Turn where
  timestamp : String
  role : String
  content : String
  risk_level : Option String
deriving DecidableEq, Repr

/-- What the network does for one POST from `send_message`: either
`requests.post` (or response parsing) raises a request exception carrying a
message, or the server answers with a status code and, per the wire contract,
a body carrying the response message and the risk level. -/
inductive NetOutcome where
  | exn : String → NetOutcome
  | resp : ℕ → String → String → NetOutcome
deriving DecidableEq, Repr

/-- Observable outcome of one `send_message` call: the Python return value
(`none` for a bare return, `some b` for a boolean), the transcript after the
call, the `st.error` texts surfaced to the user, and the list of
(message, client id) payloads actually POSTed. -/
structure SendOutcome where
  ret : Option Bool
  messages : List Turn
  errors : List String
  calls : List (String × String)
deriving DecidableEq, Repr

/-- Embedding of `send_message(message)` from sender.py.  Inputs: the network
behaviour for this call, the formatted current time, the configured server
URL (checked by Python truthiness, so `none` and the empty string both fail),
the client id, the current transcript, and the outgoing message.  On a falsy
URL it shows an error and falls off the function body (a bare `return`,
i.e. None); on HTTP 200 it appends a user turn and an assistant turn tagged
with the returned risk level and returns True; on a non-200 status or a
request exception it shows an error and returns False. -/
def send_message (net : NetOutcome) (timestamp : String)
    (server_url : Option String) (client_id : String)
    (messages : List Turn) (message : String) : SendOutcome :=
  match server_url with
  | none => ⟨none, messages, ["Server URL not configured"], []⟩
  | some url =>
    if url = "" then ⟨none, messages, ["Server URL not configured"], []⟩
    else
      match net with
      | .exn e => ⟨some false, messages, ["Connection error: " ++ e],
                   [(message, client_id)]⟩
      | .resp status respMsg risk =>
        if status = 200 then
          ⟨some true,
           messages ++ [⟨timestamp, "user", message, none⟩,
                        ⟨timestamp, "assistant", respMsg, some risk⟩],
           [], [(message, client_id)]⟩
        else
          ⟨some false, messages,
           ["Error: Server returned status " ++ toString status],
           [(message, client_id)]⟩

end Sender

namespace Receiver

/-- Helper: truthiness of null. -/
theorem falsy_null : JsonValue.null.falsy = true := rfl

/-- Helper: truthiness of a boolean. -/
theorem falsy_bool (b : Bool) : (JsonValue.bool b).falsy = !b := rfl

/-- Helper: truthiness of a number. -/
theorem falsy_num (q : ℚ) : (JsonValue.num q).falsy = (q == 0) := rfl

/-- Helper: truthiness of a string. -/
theorem falsy_str (s : String) : (JsonValue.str s).falsy = (s == "") := rfl

/-- Helper: truthiness of an array. -/
theorem falsy_arr (a : List JsonValue) : (JsonValue.arr a).falsy = a.isEmpty := rfl

/-- Helper: truthiness of an object. -/
theorem falsy_obj (l : List (String × JsonValue)) :
    (JsonValue.obj l).falsy = l.isEmpty := rfl

/-- Helper: on a truthy object body with a truthy message value the handler
takes the 200 path, classifying the message and appending one interaction
record and one emotion sample, both stamped with the current clock value. -/
theorem receive_message_accepted_eq (model : Option Model) (now : ℕ)
    (st : ServerState) (l : List (String × JsonValue))
    (hl : l.isEmpty = false) (hmsg : (msgOf l).falsy = false) :
    receive_message model now st (some (.obj l)) =
      ((.ok (get_response (analyze_emotions model (msgOf l)).1
                          (analyze_emotions model (msgOf l)).2).message
            (get_response (analyze_emotions model (msgOf l)).1
                          (analyze_emotions model (msgOf l)).2).risk_level, 200),
       ⟨st.messages ++
          [⟨now, cidOf l, msgOf l, (analyze_emotions model (msgOf l)).1,
            (analyze_emotions model (msgOf l)).2,
            (get_response (analyze_emotions model (msgOf l)).1
                          (analyze_emotions model (msgOf l)).2).message⟩],
        st.emotion_data ++
          [⟨now, (analyze_emotions model (msgOf l)).1,
            (analyze_emotions model (msgOf l)).2, cidOf l⟩]⟩) := by
  simp only [msgOf, cidOf] at hmsg ⊢
  simp [receive_message, falsy_obj, JsonValue.get, hl, hmsg]

/-- Helper: a request that fails validation (or hits the non-dict 500 path)
leaves the state unchanged, does not yield status 200, and its whole outcome
is independent of the classifier model. -/
theorem receive_message_not_accepted (model : Option Model) (now : ℕ)
    (st : ServerState) (data : Option JsonValue) (h : accepted data = false) :
    (receive_message model now st data).2 = st ∧
    (receive_message model now st data).1.2 ≠ 200 ∧
    ∀ m2 : Option Model,
      receive_message m2 now st data = receive_message model now st data := by
  cases data with
  | none => exact ⟨rfl, by simp [receive_message], fun m2 => rfl⟩
  | some d =>
    cases d with
    | null =>
      refine ⟨?_, ?_, fun m2 => ?_⟩ <;> simp [receive_message, falsy_null]
    | bool b =>
      cases b with
      | false =>
        refine ⟨?_, ?_, fun m2 => ?_⟩ <;> simp [receive_message, falsy_bool]
      | true =>
        refine ⟨?_, ?_, fun m2 => ?_⟩ <;>
          simp [receive_message, falsy_bool, JsonValue.get]
    | num q =>
      by_cases hq : q = 0 <;>
        · refine ⟨?_, ?_, fun m2 => ?_⟩ <;>
            simp [receive_message, falsy_num, JsonValue.get, hq]
    | str s =>
      by_cases hs : s = "" <;>
        · refine ⟨?_, ?_, fun m2 => ?_⟩ <;>
            simp [receive_message, falsy_str, JsonValue.get, hs]
    | arr a =>
      by_cases ha : a.isEmpty = true <;>
        · refine ⟨?_, ?_, fun m2 => ?_⟩ <;>
            simp [receive_message, falsy_arr, JsonValue.get, ha]
    | obj l =>
      by_cases hl : l.isEmpty = true
      · refine ⟨?_, ?_, fun m2 => ?_⟩ <;> simp [receive_message, falsy_obj, hl]
      · have hl2 : l.isEmpty = false := by simpa using hl
        have hmsg : ((l.lookup "message").getD (.str "")).falsy = true := by
          simp [accepted, hl2] at h
          exact h
        refine ⟨?_, ?_, fun m2 => ?_⟩ <;>
          simp [receive_message, falsy_obj, JsonValue.get, hl2, hmsg]

/-- Helper: a body passing validation is exactly a truthy object with a
truthy message value. -/
theorem accepted_shape (data : Option JsonValue) (h : accepted data = true) :
    ∃ l, data = some (.obj l) ∧ l.isEmpty = false ∧ (msgOf l).falsy = false := by
  cases data with
  | none => simp [accepted] at h
  | some d =>
    cases d with
    | obj l =>
      refine ⟨l, rfl, ?_⟩
      simpa [accepted, msgOf, Bool.and_eq_true] using h
    | null => simp [accepted] at h
    | bool b => simp [accepted] at h
    | num q => simp [accepted] at h
    | str s => simp [accepted] at h
    | arr a => simp [accepted] at h

/-- Helper: the handler answers 200 exactly on accepted bodies. -/
theorem status_200_iff_accepted (model : Option Model) (now : ℕ)
    (st : ServerState) (data : Option JsonValue) :
    (receive_message model now st data).1.2 = 200 ↔ accepted data = true := by
  constructor
  · intro h
    by_contra hacc
    have hacc2 : accepted data = false := by simpa using hacc
    exact (receive_message_not_accepted model now st data hacc2).2.1 h
  · intro h
    obtain ⟨l, rfl, hl, hmsg⟩ := accepted_shape data h
    rw [receive_message_accepted_eq model now st l hl hmsg]

/-- C1: for every emotion in the fixed high-risk list (sadness, fear, grief;
case-sensitive) and every score strictly greater than 0.5, `get_response`
returns risk level high together with the fixed crisis-referral message, and
that message contains the emergency contact number 988. -/
theorem get_response_high_risk (emotion : String) (score : ℚ)
    (hmem : emotion ∈ high_risk_emotions) (hscore : (1 : ℚ)/2 < score) :
    get_response emotion score = ⟨crisis_message, "high"⟩ ∧
    ∃ pre post, crisis_message = pre ++ "988" ++ post := by
  have hscore2 : (2 : ℚ)⁻¹ < score := by rwa [one_div] at hscore
  refine ⟨by simp [get_response, hmem, hscore2], ?_⟩
  refine ⟨"I hear how much pain you\x27re in, and I want you to know that your life has value. Please reach out to the crisis helpline immediately at ",
    " - they are available 24/7 and want to support you. You don\x27t have to go through this alone.", ?_⟩
  rfl

/-- Witness for C1 at emotion sadness and score 1. -/
theorem get_response_high_risk_witness :
    get_response "sadness" 1 = ⟨crisis_message, "high"⟩ ∧
    ∃ pre post, crisis_message = pre ++ "988" ++ post :=
  get_response_high_risk "sadness" 1 (by decide) (by norm_num)

/-- C2: whenever the high-risk condition fails (emotion outside the high-risk
list at any score, or score at most 0.5, which covers the boundary 0.5 and
unknown or empty emotions), `get_response` returns risk level medium with the
fixed generic supportive message. -/
theorem get_response_medium (emotion : String) (score : ℚ)
    (h : emotion ∉ high_risk_emotions ∨ score ≤ (1 : ℚ)/2) :
    get_response emotion score = ⟨generic_message, "medium"⟩ := by
  unfold get_response
  rw [if_neg]
  rintro ⟨hmem, hscore⟩
  rcases h with h | h
  · exact h hmem
  · exact absurd hscore (not_lt.mpr h)

/-- Witness for C2 at the boundary: emotion sadness with score exactly 0.5
is classified medium. -/
theorem get_response_medium_witness :
    get_response "sadness" ((1 : ℚ)/2) = ⟨generic_message, "medium"⟩ :=
  get_response_medium "sadness" ((1 : ℚ)/2) (Or.inr le_rfl)

/-- C4: a request whose body is missing or unparseable as JSON (so
`request.json` carries no value) is answered 400 with the error text
No JSON data received, for any model and any session state. -/
theorem receive_message_no_json (model : Option Model) (now : ℕ)
    (st : ServerState) :
    receive_message model now st none = ((.err "No JSON data received", 400), st) :=
  rfl

/-- C5 counterexample: the valid JSON body consisting of the empty object has
no message field, yet the handler answers with the No-JSON error text, not
with Empty message. -/
theorem empty_object_not_empty_message :
    (receive_message none 0 ⟨[], []⟩ (some (.obj []))).1
      = (.err "No JSON data received", 400) ∧
    ((RespBody.err "No JSON data received", 400) : RespBody × ℕ)
      ≠ ((RespBody.err "Empty message", 400) : RespBody × ℕ) :=
  ⟨rfl, by decide⟩

/-- C5 amended: a request whose JSON body is a nonempty object whose message
field is absent or the empty string is answered 400 with Empty message, with
the session state unchanged. -/
theorem receive_message_empty_message (model : Option Model) (now : ℕ)
    (st : ServerState) (l : List (String × JsonValue)) (hne : l.isEmpty = false)
    (hmsg : l.lookup "message" = none ∨ l.lookup "message" = some (.str "")) :
    receive_message model now st (some (.obj l))
      = ((.err "Empty message", 400), st) := by
  have hfalsy : ((l.lookup "message").getD (.str "")).falsy = true := by
    rcases hmsg with hmsg | hmsg <;> simp [hmsg, falsy_str]
  simp [receive_message, falsy_obj, JsonValue.get, hne, hfalsy]

/-- Witness for the amended C5: a nonempty object carrying only a client id
is answered 400 Empty message. -/
theorem receive_message_empty_message_witness :
    receive_message none 0 ⟨[], []⟩ (some (.obj [("client_id", .str "c1")]))
      = ((.err "Empty message", 400), ⟨[], []⟩) :=
  receive_message_empty_message none 0 ⟨[], []⟩ [("client_id", .str "c1")]
    rfl (Or.inl rfl)

/-- C3: when the model failed to load, or when its invocation fails,
`analyze_emotions` returns the sentinel pair (unknown, 0) instead of
propagating the error, and the handler on an otherwise valid request still
answers 200 with the medium-risk generic response. -/
theorem analyze_emotions_degrades (text : JsonValue) :
    analyze_emotions none text = ("unknown", 0) ∧
    (∀ m : Model, m text = none → analyze_emotions (some m) text = ("unknown", 0)) ∧
    ∀ (model : Option Model) (now : ℕ) (st : ServerState)
      (l : List (String × JsonValue)),
      (model = none ∨ ∃ m, model = some m ∧ m (msgOf l) = none) →
      l.isEmpty = false → (msgOf l).falsy = false →
      (receive_message model now st (some (.obj l))).1
        = (.ok generic_message "medium", 200) := by
  refine ⟨rfl, fun m hm => by simp [analyze_emotions, hm], ?_⟩
  intro model now st l hfail hl hmsg
  have hsent : analyze_emotions model (msgOf l) = ("unknown", 0) := by
    rcases hfail with rfl | ⟨m, rfl, hm⟩
    · rfl
    · simp [analyze_emotions, hm]
  rw [receive_message_accepted_eq model now st l hl hmsg, hsent]
  norm_num [get_response, high_risk_emotions]

/-- Witness for C3: a failing invocation degrades to the sentinel, and a
valid request is answered 200 medium both when the model failed to load and
when its invocation fails on the message. -/
theorem analyze_emotions_degrades_witness :
    analyze_emotions (some fun _ => none) (.str "help") = ("unknown", 0) ∧
    (receive_message none 7 ⟨[], []⟩ (some (.obj [("message", .str "help")]))).1
      = (.ok generic_message "medium", 200) ∧
    (receive_message (some fun _ => none) 7 ⟨[], []⟩
        (some (.obj [("message", .str "help")]))).1
      = (.ok generic_message "medium", 200) := by
  have h := analyze_emotions_degrades (.str "help")
  refine ⟨h.2.1 (fun _ => none) rfl, ?_, ?_⟩
  · exact h.2.2 none 7 ⟨[], []⟩ [("message", .str "help")] (Or.inl rfl) rfl rfl
  · exact h.2.2 (some fun _ => none) 7 ⟨[], []⟩ [("message", .str "help")]
      (Or.inr ⟨fun _ => none, rfl, rfl⟩) rfl rfl

/-- C7: a request rejected with status 400 leaves the session state
unchanged, and its whole outcome is independent of the classifier model, so
neither the classifier, nor the risk policy, nor the log appends can have
been observed. -/
theorem reject_leaves_log_unchanged (model : Option Model) (now : ℕ)
    (st : ServerState) (data : Option JsonValue)
    (h : (receive_message model now st data).1.2 = 400) :
    (receive_message model now st data).2 = st ∧
    ∀ m2 : Option Model,
      receive_message m2 now st data = receive_message model now st data := by
  have hacc : accepted data = false := by
    cases hb : accepted data
    · rfl
    · have h200 := (status_200_iff_accepted model now st data).mpr hb
      rw [h] at h200
      exact absurd h200 (by decide)
  obtain ⟨h1, _, h3⟩ := receive_message_not_accepted model now st data hacc
  exact ⟨h1, h3⟩

/-- Witness for C7 at the missing-body rejection. -/
theorem reject_leaves_log_unchanged_witness :
    (receive_message none 0 ⟨[], []⟩ none).2 = (⟨[], []⟩ : ServerState) ∧
    ∀ m2 : Option Model,
      receive_message m2 0 ⟨[], []⟩ none = receive_message none 0 ⟨[], []⟩ none :=
  reject_leaves_log_unchanged none 0 ⟨[], []⟩ none rfl

/-- C10: the handler answers 400 No JSON data received exactly when the value
of `request.json` is falsy (including the empty object), and on an object
body it answers 400 Empty message exactly when the object is truthy but the
message value obtained by `get` with default empty string is falsy (missing,
empty string, null, 0, or false); in particular the empty object gets the
No-JSON error, never Empty message. -/
theorem validation_order (model : Option Model) (now : ℕ) (st : ServerState) :
    (∀ data : Option JsonValue,
      ((receive_message model now st data).1
          = (.err "No JSON data received", 400) ↔ bodyFalsy data = true)) ∧
    (∀ l : List (String × JsonValue),
      ((receive_message model now st (some (.obj l))).1
          = (.err "Empty message", 400)
        ↔ l.isEmpty = false ∧ (msgOf l).falsy = true)) ∧
    (receive_message model now st (some (.obj []))).1
      = (.err "No JSON data received", 400) := by
  refine ⟨?_, ?_, rfl⟩
  · intro data
    cases data with
    | none => simp [receive_message, bodyFalsy]
    | some d =>
      cases d with
      | null => simp [receive_message, bodyFalsy, falsy_null]
      | bool b =>
        cases b <;>
          simp [receive_message, bodyFalsy, falsy_bool, JsonValue.get]
      | num q =>
        by_cases hq : q = 0 <;>
          simp [receive_message, bodyFalsy, falsy_num, JsonValue.get, hq]
      | str s =>
        by_cases hs : s = "" <;>
          simp [receive_message, bodyFalsy, falsy_str, JsonValue.get, hs]
      | arr a =>
        by_cases ha : a.isEmpty = true <;>
          simp [receive_message, bodyFalsy, falsy_arr, JsonValue.get, ha]
      | obj l =>
        by_cases hl : l.isEmpty = true
        · simp [receive_message, bodyFalsy, falsy_obj, hl]
        · have hl2 : l.isEmpty = false := by simpa using hl
          by_cases hm : ((l.lookup "message").getD (.str "")).falsy = true
          · simp [receive_message, bodyFalsy, falsy_obj, JsonValue.get, hl2, hm]
          · have hm2 : ((l.lookup "message").getD (.str "")).falsy = false := by
              simpa using hm
            simp [receive_message, bodyFalsy, falsy_obj, JsonValue.get, hl2, hm2]
  · intro l
    by_cases hl : l.isEmpty = true
    · simp [receive_message, falsy_obj, hl]
    · have hl2 : l.isEmpty = false := by simpa using hl
      by_cases hm : ((l.lookup "message").getD (.str "")).falsy = true
      · simp [receive_message, falsy_obj, JsonValue.get, msgOf, hl2, hm]
      · have hm2 : ((l.lookup "message").getD (.str "")).falsy = false := by
          simpa using hm
        simp [receive_message, falsy_obj, JsonValue.get, msgOf, hl2, hm2]

/-- C6: the session log is append-only and insertion-ordered.  Every accepted
request appends exactly one interaction record and one emotion sample, both
carrying the request clock value; a non-200 outcome leaves the state intact;
and N sequential accepted requests extend the log by exactly N new records
whose timestamps list the requests in submission order. -/
theorem session_log_append_only (model : Option Model) :
    (∀ (now : ℕ) (st : ServerState) (data : Option JsonValue),
      (receive_message model now st data).1.2 = 200 →
      ∃ entry sample,
        (receive_message model now st data).2.messages = st.messages ++ [entry] ∧
        (receive_message model now st data).2.emotion_data
          = st.emotion_data ++ [sample] ∧
        entry.timestamp = now ∧ sample.timestamp = now) ∧
    (∀ (now : ℕ) (st : ServerState) (data : Option JsonValue),
      (receive_message model now st data).1.2 ≠ 200 →
      (receive_message model now st data).2 = st) ∧
    (∀ (reqs : List (ℕ × Option JsonValue)) (st : ServerState),
      (∀ r ∈ reqs, accepted r.2 = true) →
      ∃ news : List InteractionRecord,
        (runRequests model reqs st).messages = st.messages ++ news ∧
        news.length = reqs.length ∧
        news.map InteractionRecord.timestamp = reqs.map Prod.fst) := by
  refine ⟨?_, ?_, ?_⟩
  · intro now st data h
    have hacc := (status_200_iff_accepted model now st data).mp h
    obtain ⟨l, rfl, hl, hmsg⟩ := accepted_shape data hacc
    rw [receive_message_accepted_eq model now st l hl hmsg]
    exact ⟨_, _, rfl, rfl, rfl, rfl⟩
  · intro now st data h
    have hacc : accepted data = false := by
      cases hb : accepted data
      · rfl
      · exact absurd ((status_200_iff_accepted model now st data).mpr hb) h
    exact (receive_message_not_accepted model now st data hacc).1
  · intro reqs
    induction reqs with
    | nil => exact fun st h => ⟨[], by simp [runRequests], rfl, rfl⟩
    | cons r rs ih =>
      intro st h
      have hr : accepted r.2 = true := h r (List.mem_cons_self r rs)
      obtain ⟨l, hdata, hl, hmsg⟩ := accepted_shape r.2 hr
      have hstep := receive_message_accepted_eq model r.1 st l hl hmsg
      obtain ⟨news, h1, h2, h3⟩ :=
        ih (receive_message model r.1 st r.2).2
          (fun x hx => h x (List.mem_cons_of_mem r hx))
      refine ⟨⟨r.1, cidOf l, msgOf l, (analyze_emotions model (msgOf l)).1,
               (analyze_emotions model (msgOf l)).2,
               (get_response (analyze_emotions model (msgOf l)).1
                 (analyze_emotions model (msgOf l)).2).message⟩ :: news,
             ?_, by simp [h2], by simp [h3]⟩
      have hrun : runRequests model (r :: rs) st
          = runRequests model rs (receive_message model r.1 st r.2).2 := by
        simp [runRequests]
      rw [hrun, h1, hdata, hstep]
      simp

/-- Witness for C6: one accepted request against the empty log yields exactly
one record stamped with its timestamp. -/
theorem session_log_append_only_witness :
    ∃ news : List InteractionRecord,
      (runRequests none [(5, some (.obj [("message", .str "hi")]))]
          ⟨[], []⟩).messages = [] ++ news ∧
      news.length = 1 ∧
      news.map InteractionRecord.timestamp = [5] := by
  have h := (session_log_append_only none).2.2
    [(5, some (.obj [("message", .str "hi")]))] ⟨[], []⟩ (by decide)
  simpa using h

end Receiver

namespace Sender

/-- C8 counterexample: with no configured server URL, `send_message` falls
off the function body and returns None, not the boolean False. -/
theorem send_unconfigured_returns_none :
    (send_message (.exn "connection refused") "t" none "c1" [] "hello").ret
      = none ∧ (none : Option Bool) ≠ some false :=
  ⟨rfl, by decide⟩

/-- C8 amended: when the server base URL is not configured, `send_message`
fails locally with a bare return (None, a falsy value rather than the boolean
False), makes no network call, and leaves the transcript unchanged; on every
configured path with a nonempty URL it does return a boolean. -/
theorem send_unconfigured_fails_locally (net : NetOutcome) (ts : String)
    (cid : String) (msgs : List Turn) (m : String) :
    (send_message net ts none cid msgs m).ret = none ∧
    (send_message net ts none cid msgs m).calls = [] ∧
    (send_message net ts none cid msgs m).messages = msgs ∧
    ∀ url : String, url ≠ "" →
      ((send_message net ts (some url) cid msgs m).ret).isSome = true := by
  refine ⟨rfl, rfl, rfl, fun url hurl => ?_⟩
  cases net with
  | exn e => simp [send_message, hurl]
  | resp status respMsg risk =>
    by_cases hs : status = 200 <;> simp [send_message, hurl, hs]

/-- Witness for the amended C8 at a concrete URL. -/
theorem send_unconfigured_fails_locally_witness :
    (send_message (.exn "x") "t" none "c" [] "m").ret = none ∧
    ((send_message (.exn "x") "t" (some "http://localhost:5000") "c" [] "m").ret).isSome
      = true := by
  have h := send_unconfigured_fails_locally (.exn "x") "t" "c" [] "m"
  exact ⟨h.1, h.2.2.2 "http://localhost:5000" (by decide)⟩

/-- C9: with a configured nonempty URL, an HTTP 200 reply makes
`send_message` append a user turn and an assistant turn tagged with the
returned risk level and return True; a non-200 status or a request exception
makes it surface a user-visible error, leave the transcript unchanged, and
return False. -/
theorem send_configured_outcomes (ts url cid m : String) (msgs : List Turn)
    (hurl : url ≠ "") :
    (∀ respMsg risk : String,
      send_message (.resp 200 respMsg risk) ts (some url) cid msgs m =
        ⟨some true,
         msgs ++ [⟨ts, "user", m, none⟩, ⟨ts, "assistant", respMsg, some risk⟩],
         [], [(m, cid)]⟩) ∧
    (∀ (status : ℕ) (respMsg risk : String), status ≠ 200 →
      send_message (.resp status respMsg risk) ts (some url) cid msgs m =
        ⟨some false, msgs,
         ["Error: Server returned status " ++ toString status], [(m, cid)]⟩) ∧
    (∀ e : String,
      send_message (.exn e) ts (some url) cid msgs m =
        ⟨some false, msgs, ["Connection error: " ++ e], [(m, cid)]⟩) := by
  refine ⟨fun respMsg risk => ?_, fun status respMsg risk hs => ?_, fun e => ?_⟩
  · simp [send_message, hurl]
  · simp [send_message, hurl, hs]
  · simp [send_message, hurl]

/-- Witness for C9: a 200 reply appends the two tagged turns and returns
True, and a 500 reply returns False leaving the transcript unchanged. -/
theorem send_configured_outcomes_witness :
    send_message (.resp 200 "resp" "high") "t" (some "http://h:5") "c" [] "hi" =
      ⟨some true,
       [⟨"t", "user", "hi", none⟩, ⟨"t", "assistant", "resp", some "high"⟩],
       [], [("hi", "c")]⟩ ∧
    send_message (.resp 500 "resp" "high") "t" (some "http://h:5") "c" [] "hi" =
      ⟨some false, [], ["Error: Server returned status 500"], [("hi", "c")]⟩ := by
  have h := send_configured_outcomes "t" "http://h:5" "c" "hi" [] (by decide)
  exact ⟨by simpa using h.1 "resp" "high",
         by simpa using h.2.1 500 "resp" "high" (by decide)⟩

end Sender
